import Mathlib

/-!
Shallow embedding of src/app.py (Enterprise Content Analyzer) and proofs
about its extraction, prompt-composition and render-gating behaviour.

External libraries (requests, BeautifulSoup, PyPDF2, pandas, the UTF-8
decoder) are modelled as oracles: each input carries the outcome the
library call would produce (a value or a raised exception), and the code
of app.py is translated faithfully on top of those outcomes.
-/

namespace Agentic

/-- A Python exception, represented by the message that str(e) yields. -/
abbrev PyExn := String

/-- Semantics of a Python function whose whole body sits inside
try: ... except Exception as e: return handler(e).
The caller receives either the normal value or a propagated exception;
since the handler returns normally, no exception propagates. -/
def pyTryExcept {α : Type} (body : Except PyExn α) (handler : PyExn → α) :
    Except PyExn α :=
  match body with
  | .ok a => .ok a
  | .error e => .ok (handler e)

/-- The pair a try/except extractor evaluates to: on success
(text, None), on a caught exception (None, prefix + str(e)). -/
def pyCatch (body : Except PyExn String) (pre : String) :
    Option String × Option String :=
  match body with
  | .ok t => (some t, none)
  | .error e => (none, some (pre ++ e))

/-! ### The DOM model for BeautifulSoup -/

/-- A parsed HTML node: a text node or an element with a tag and children. -/
inductive Node where
  | text : String → Node
  | elem : String → List Node → Node

/-- The tags decomposed by the loop for script in soup([\x7b... -/
def badTags : List String := ["script", "style"]

mutual

/-- soup.get_text() on a node: concatenation of all text nodes. -/
def getText : Node → String
  | .text s => s
  | .elem _ cs => getTextList cs

/-- soup.get_text() over a list of sibling nodes. -/
def getTextList : List Node → String
  | [] => ""
  | n :: ns => getText n ++ getTextList ns

end

mutual

/-- Result of script.decompose() applied below a surviving node:
script/style descendants are removed from the children. -/
def scrubNode : Node → Node
  | .text s => .text s
  | .elem t cs => .elem t (scrubList cs)

/-- Result of decomposing every script/style element in a node list. -/
def scrubList : List Node → List Node
  | [] => []
  | .text s :: ns => .text s :: scrubList ns
  | .elem t cs :: ns =>
    if t ∈ badTags then scrubList ns
    else .elem t (scrubList cs) :: scrubList ns

end

mutual

/-- Specification-side definition: the text of a node, reading nothing
from inside a script/style element. -/
def textOutside : Node → String
  | .text s => s
  | .elem t cs => if t ∈ badTags then "" else textOutsideList cs

/-- Specification-side definition over sibling lists. -/
def textOutsideList : List Node → String
  | [] => ""
  | n :: ns => textOutside n ++ textOutsideList ns

end

/-! ### The whitespace collapse of line 91

text = space-join of (chunk.strip() for line in s.splitlines()
                                    for chunk in line.split("  ") if chunk)

splitlines is modelled as a per-character split on the line-boundary
characters; Python treats a CRLF pair as one boundary and drops a final
empty line, but both differences only add or remove empty chunks, which
the `if chunk` filter discards, so the collapsed output is unchanged. -/

/-- Line-boundary characters recognised by str.splitlines. -/
def isLineBoundary (c : Char) : Bool :=
  c = '\n' || c = '\r' || c = '\x0b' || c = '\x0c' ||
  c = '\x1c' || c = '\x1d' || c = '\x1e' || c = '\x85' ||
  c = '\u2028' || c = '\u2029'

/-- Characters stripped by str.strip (the whitespace set, restricted to
the code points occurring in this development). -/
def isPySpace (c : Char) : Bool :=
  c = ' ' || c = '\t' || c = '\n' || c = '\r' || c = '\x0b' || c = '\x0c' ||
  c = '\x1c' || c = '\x1d' || c = '\x1e' || c = '\x85' || c = '\xa0' ||
  c = '\u2028' || c = '\u2029'

/-- Split a character list at every character satisfying p, keeping the
pieces between separators (s.splitlines with boundary predicate p). -/
def splitOnPred (p : Char → Bool) : List Char → List (List Char)
  | [] => [[]]
  | c :: cs =>
    if p c then [] :: splitOnPred p cs
    else
      match splitOnPred p cs with
      | [] => [[c]]
      | l :: ls => (c :: l) :: ls

/-- line.split("  "): split at each leftmost non-overlapping occurrence
of two consecutive spaces. -/
def splitTwoSpaces : List Char → List (List Char)
  | [] => [[]]
  | [c] => [[c]]
  | c1 :: c2 :: cs =>
    if c1 = ' ' ∧ c2 = ' ' then [] :: splitTwoSpaces cs
    else
      match splitTwoSpaces (c2 :: cs) with
      | [] => [[c1]]
      | l :: ls => (c1 :: l) :: ls

/-- The chunks of all lines in order: line.split("  ") flattened. -/
def splitChunks : List (List Char) → List (List Char)
  | [] => []
  | l :: ls => splitTwoSpaces l ++ splitChunks ls

/-- chunk.strip(): drop leading and trailing whitespace. -/
def pyStrip (cs : List Char) : List Char :=
  ((cs.dropWhile isPySpace).reverse.dropWhile isPySpace).reverse

/-- The space-join of a list of chunks, as in " ".join(...). -/
def joinChunks : List (List Char) → List Char
  | [] => []
  | [l] => l
  | l :: l' :: ls => l ++ ' ' :: joinChunks (l' :: ls)

/-- The whole collapse of line 91 over the get_text output. -/
def collapseChars (cs : List Char) : List Char :=
  joinChunks
    (((splitChunks (splitOnPred isLineBoundary cs)).filter
        (fun l => !l.isEmpty)).map pyStrip)

/-- String wrapper for the collapse. -/
def collapse_text (s : String) : String :=
  ⟨collapseChars s.data⟩

/-! ### The five extraction strategies -/

/-- The outcome of requests.get: a transport exception or a response,
carrying the HTTP status and the DOM that BeautifulSoup builds from
response.text. -/
structure HttpResponse where
  status : Nat
  doc : List Node

/-- response.raise_for_status(): raises for 4xx and 5xx statuses. -/
def raiseForStatus (r : HttpResponse) : Except PyExn Unit :=
  if 400 ≤ r.status ∧ r.status < 600 then
    .error ("HTTP error " ++ toString r.status) else .ok ()

/-- Body of fetch_webpage_content inside the try block: a raising
requests.get or raise_for_status propagates; otherwise the DOM is
scrubbed and its text collapsed. -/
def fetchBody : Except PyExn HttpResponse → Except PyExn String
  | .error e => .error e
  | .ok r =>
    match raiseForStatus r with
    | .error e => .error e
    | .ok _ => .ok (collapse_text (getTextList (scrubList r.doc)))

/-- fetch_webpage_content(url): the (text, error) pair it evaluates to. -/
def fetch_webpage_content (fetch : Except PyExn HttpResponse) :
    Option String × Option String :=
  pyCatch (fetchBody fetch) "Error fetching content: "

/-- A PDF upload: the outcome of PyPDF2.PdfReader (which may raise), and
for each page the outcome of page.extract_text() (which may raise). -/
structure PdfFile where
  parse : Except PyExn (List (Except PyExn String))

/-- The loop for page in reader.pages: text += page.extract_text() + newline;
a page whose extraction raises propagates the exception to the try. -/
def pdfLoop (acc : String) : List (Except PyExn String) → Except PyExn String
  | [] => .ok acc
  | pg :: pgs =>
    match pg with
    | .ok t => pdfLoop (acc ++ t ++ "\n") pgs
    | .error e => .error e

/-- Body of extract_text_from_pdf inside the try block: a raising
PdfReader propagates; otherwise text = "" and the page loop runs. -/
def pdfBody (f : PdfFile) : Except PyExn String :=
  match f.parse with
  | .error e => .error e
  | .ok pages => pdfLoop "" pages

/-- extract_text_from_pdf(uploaded_file). -/
def extract_text_from_pdf (f : PdfFile) : Option String × Option String :=
  pyCatch (pdfBody f) "Error processing PDF: "

/-- A text upload: the outcome of str(uploaded_file.read(), "utf-8"). -/
structure TxtFile where
  decode : Except PyExn String

/-- extract_text_from_txt(uploaded_file). -/
def extract_text_from_txt (f : TxtFile) : Option String × Option String :=
  pyCatch f.decode "Error processing text file: "

/-- A parsed pandas DataFrame, abstracted by its to_string rendering. -/
structure DataFrame where
  to_string : String

/-- A CSV upload: the outcome of pd.read_csv. -/
structure CsvFile where
  parse : Except PyExn DataFrame

/-- Body of extract_text_from_csv inside the try block. -/
def csvBody (f : CsvFile) : Except PyExn String :=
  f.parse.map DataFrame.to_string

/-- extract_text_from_csv(uploaded_file). -/
def extract_text_from_csv (f : CsvFile) : Option String × Option String :=
  pyCatch (csvBody f) "Error processing CSV file: "

/-- An Excel upload: the outcome of pd.read_excel. -/
structure ExcelFile where
  parse : Except PyExn DataFrame

/-- Body of extract_text_from_excel inside the try block. -/
def excelBody (f : ExcelFile) : Except PyExn String :=
  f.parse.map DataFrame.to_string

/-- extract_text_from_excel(uploaded_file). -/
def extract_text_from_excel (f : ExcelFile) : Option String × Option String :=
  pyCatch (excelBody f) "Error processing Excel file: "

/-! ### Caller-visible semantics of the five strategies

Each Python function is, to its caller, an Except value: a normal
return or a propagated exception. The whole body of every strategy sits
inside try/except Exception, modelled by pyTryExcept. -/

/-- fetch_webpage_content as seen by its caller. -/
def fetch_webpage_content_call (fetch : Except PyExn HttpResponse) :
    Except PyExn (Option String × Option String) :=
  pyTryExcept ((fetchBody fetch).map fun t => (some t, none))
    (fun e => (none, some ("Error fetching content: " ++ e)))

/-- extract_text_from_pdf as seen by its caller. -/
def extract_text_from_pdf_call (f : PdfFile) :
    Except PyExn (Option String × Option String) :=
  pyTryExcept ((pdfBody f).map fun t => (some t, none))
    (fun e => (none, some ("Error processing PDF: " ++ e)))

/-- extract_text_from_txt as seen by its caller. -/
def extract_text_from_txt_call (f : TxtFile) :
    Except PyExn (Option String × Option String) :=
  pyTryExcept (f.decode.map fun t => (some t, none))
    (fun e => (none, some ("Error processing text file: " ++ e)))

/-- extract_text_from_csv as seen by its caller. -/
def extract_text_from_csv_call (f : CsvFile) :
    Except PyExn (Option String × Option String) :=
  pyTryExcept ((csvBody f).map fun t => (some t, none))
    (fun e => (none, some ("Error processing CSV file: " ++ e)))

/-- extract_text_from_excel as seen by its caller. -/
def extract_text_from_excel_call (f : ExcelFile) :
    Except PyExn (Option String × Option String) :=
  pyTryExcept ((excelBody f).map fun t => (some t, none))
    (fun e => (none, some ("Error processing Excel file: " ++ e)))

/-! ### Prompt composition (lines 211 to 220) -/

/-- Python string slicing s[:n]: the first n characters. -/
def pySlice (s : String) (n : Nat) : String :=
  ⟨s.data.take n⟩

/-- The template text before the user query. -/
def promptPre : String :=
  "\n                Analyze the following content and answer the user's question:\n                \n                User Query: "

/-- The template text between the query and the content slice. -/
def promptMid : String :=
  "\n                \n                Content:\n                "

/-- The template text after the content slice. -/
def promptPost : String :=
  "\n                \n                Provide a structured and detailed response.\n                "

/-- The f-string analysis_prompt built from the query and the loaded
content, the content sliced to its first 8000 characters. -/
def analysis_prompt (user_query data_content : String) : String :=
  promptPre ++ user_query ++ promptMid ++ pySlice data_content 8000 ++ promptPost

/-! ### The render cycle (lines 155 to 225) -/

/-- Python truthiness of an optional string: None and "" are falsy. -/
def truthy : Option String → Bool
  | none => false
  | some s => !s.isEmpty

/-- An uploaded file: its declared media type, together with the oracle
outcomes of each parser on its bytes (only the one matching the declared
type is consulted by the dispatch). -/
structure UploadedFile where
  type : String
  pdf : PdfFile
  txt : TxtFile
  csv : CsvFile
  excel : ExcelFile

/-- The state of the input widgets in one render cycle. -/
inductive SourceInput where
  | website (url : String) (fetch : Except PyExn HttpResponse)
  | upload (file : Option UploadedFile)

/-- Lines 162 to 190: initialise data_content and error_message to None,
then dispatch on the input choice and the declared media type. -/
def runInputStage : SourceInput → Option String × Option String
  | .website url fetch =>
    if url = "" then (none, none) else fetch_webpage_content fetch
  | .upload none => (none, none)
  | .upload (some f) =>
    if f.type = "application/pdf" then extract_text_from_pdf f.pdf
    else if f.type = "text/plain" then extract_text_from_txt f.txt
    else if f.type = "text/csv" then extract_text_from_csv f.csv
    else if f.type = "application/vnd.ms-excel" ∨
        f.type = "application/vnd.openxmlformats-officedocument.spreadsheetml.sheet" then
      extract_text_from_excel f.excel
    else (none, none)

/-- What one render cycle shows and does after the input stage. -/
structure RenderOutput where
  errorShown : Bool
  successShown : Bool
  queryUnlocked : Bool
  warningShown : Bool
  agentPrompt : Option String

/-- Lines 192 to 225: the error banner is shown iff error_message is
truthy; the success banner, the query input and the analyze button exist
iff data_content is truthy; a click with an empty query warns, a click
with a non-empty query composes the prompt and invokes the agent. -/
def renderMain (data_content error_message : Option String)
    (user_query : String) (clicked : Bool) : RenderOutput :=
  match data_content with
  | some s =>
    if s = "" then
      { errorShown := truthy error_message, successShown := false,
        queryUnlocked := false, warningShown := false, agentPrompt := none }
    else
      { errorShown := truthy error_message, successShown := true,
        queryUnlocked := true,
        warningShown := clicked && user_query = "",
        agentPrompt :=
          if clicked ∧ user_query ≠ "" then
            some (analysis_prompt user_query s)
          else none }
  | none =>
    { errorShown := truthy error_message, successShown := false,
      queryUnlocked := false, warningShown := false, agentPrompt := none }

/-- A whole render cycle: input stage then display and action stage. -/
def renderCycle (src : SourceInput) (user_query : String) (clicked : Bool) :
    RenderOutput :=
  renderMain (runInputStage src).1 (runInputStage src).2 user_query clicked

/-- Specification-side definition for the PDF claim: every page text
followed by a newline, concatenated in page order. -/
def joinPages : List String → String
  | [] => ""
  | t :: ts => t ++ "\n" ++ joinPages ts

/-- The five media-type strings the dispatch recognises. -/
def handledTypes : List String :=
  ["application/pdf", "text/plain", "text/csv", "application/vnd.ms-excel",
   "application/vnd.openxmlformats-officedocument.spreadsheetml.sheet"]

/-- A concrete upload: an empty text file, declared text/plain; the
parsers for the other formats are irrelevant to its dispatch. -/
def emptyTxtUpload : UploadedFile :=
  { type := "text/plain", pdf := ⟨Except.error "unused"⟩,
    txt := ⟨Except.ok ""⟩, csv := ⟨Except.error "unused"⟩,
    excel := ⟨Except.error "unused"⟩ }

/-- A concrete upload: a text file decoding to "hello". -/
def helloTxtUpload : UploadedFile :=
  { type := "text/plain", pdf := ⟨Except.error "unused"⟩,
    txt := ⟨Except.ok "hello"⟩, csv := ⟨Except.error "unused"⟩,
    excel := ⟨Except.error "unused"⟩ }

/-- A concrete upload whose declared media type matches no dispatch arm. -/
def pngUpload : UploadedFile :=
  { type := "image/png", pdf := ⟨Except.error "unused"⟩,
    txt := ⟨Except.error "unused"⟩, csv := ⟨Except.error "unused"⟩,
    excel := ⟨Except.error "unused"⟩ }

/-! ### Helper lemmas -/

/-- The pair produced by a try/except extractor has exactly one
populated component. -/
theorem pyCatch_cases (body : Except PyExn String) (pre : String) :
    (∃ t, pyCatch body pre = (some t, none)) ∨
    (∃ m, pyCatch body pre = (none, some m)) := by
  cases body with
  | ok t => exact Or.inl ⟨t, rfl⟩
  | error e => exact Or.inr ⟨pre ++ e, rfl⟩

/-- The caller-visible run of a try/except extractor is a normal return
of the converted pair. -/
theorem pyTryExcept_ok (body : Except PyExn String) (pre : String) :
    pyTryExcept (body.map fun t => ((some t : Option String), (none : Option String)))
        (fun e => (none, some (pre ++ e)))
      = .ok (pyCatch body pre) := by
  cases body <;> rfl

/-- If a try/except extractor reports an error, its text component is
None. -/
theorem pyCatch_fst_none {body : Except PyExn String} {pre m : String}
    (h : (pyCatch body pre).2 = some m) : (pyCatch body pre).1 = none := by
  cases body with
  | ok t => simp [pyCatch] at h
  | error e => rfl

/-- Every branch of the input stage leaves the initial (None, None) pair
or stores the pair of exactly one extractor call. -/
theorem runInputStage_shape (src : SourceInput) :
    runInputStage src = (none, none) ∨
    ∃ body pre, runInputStage src = pyCatch body pre := by
  cases src with
  | website url fetch =>
    simp only [runInputStage]
    split
    · exact Or.inl rfl
    · exact Or.inr ⟨fetchBody fetch, _, rfl⟩
  | upload file =>
    cases file with
    | none => exact Or.inl rfl
    | some f =>
      simp only [runInputStage]
      split
      · exact Or.inr ⟨pdfBody f.pdf, _, rfl⟩
      · split
        · exact Or.inr ⟨f.txt.decode, _, rfl⟩
        · split
          · exact Or.inr ⟨csvBody f.csv, _, rfl⟩
          · split
            · exact Or.inr ⟨excelBody f.excel, _, rfl⟩
            · exact Or.inl rfl

/-- After the input stage, an error message forces data_content = None:
both values come initialised to None and are only ever overwritten
together by one extractor call, whose pair is exclusive. -/
theorem runInputStage_fst_none {src : SourceInput} {m : String}
    (h : (runInputStage src).2 = some m) : (runInputStage src).1 = none := by
  rcases runInputStage_shape src with h0 | ⟨body, pre, he⟩
  · rw [h0] at h
    simp at h
  · rw [he] at h ⊢
    exact pyCatch_fst_none h

/-- With data_content = None the render locks everything downstream. -/
theorem renderMain_none (e : Option String) (q : String) (clicked : Bool) :
    renderMain none e q clicked =
      { errorShown := truthy e, successShown := false, queryUnlocked := false,
        warningShown := false, agentPrompt := none } := rfl

/-! ### C2: no strategy raises to its caller -/

/-- C2: for every input to any of the five extraction strategies, the
caller receives a normal (text, error) pair: every internal exception is
caught and converted, none propagates. -/
theorem extractors_never_raise :
    (∀ f, fetch_webpage_content_call f = .ok (fetch_webpage_content f)) ∧
    (∀ f, extract_text_from_pdf_call f = .ok (extract_text_from_pdf f)) ∧
    (∀ f, extract_text_from_txt_call f = .ok (extract_text_from_txt f)) ∧
    (∀ f, extract_text_from_csv_call f = .ok (extract_text_from_csv f)) ∧
    (∀ f, extract_text_from_excel_call f = .ok (extract_text_from_excel f)) :=
  ⟨fun f => pyTryExcept_ok (fetchBody f) _,
   fun f => pyTryExcept_ok (pdfBody f) _,
   fun f => pyTryExcept_ok f.decode _,
   fun f => pyTryExcept_ok (csvBody f) _,
   fun f => pyTryExcept_ok (excelBody f) _⟩

/-! ### C3: the result pair has exactly one populated component -/

/-- C3: every extraction attempt, in each of the five strategies, yields
either (some text, none) or (none, some message): never both populated
and never both empty. -/
theorem extraction_pair_exclusive :
    (∀ f, (∃ t, fetch_webpage_content f = (some t, none)) ∨
      ∃ m, fetch_webpage_content f = (none, some m)) ∧
    (∀ f, (∃ t, extract_text_from_pdf f = (some t, none)) ∨
      ∃ m, extract_text_from_pdf f = (none, some m)) ∧
    (∀ f, (∃ t, extract_text_from_txt f = (some t, none)) ∨
      ∃ m, extract_text_from_txt f = (none, some m)) ∧
    (∀ f, (∃ t, extract_text_from_csv f = (some t, none)) ∨
      ∃ m, extract_text_from_csv f = (none, some m)) ∧
    (∀ f, (∃ t, extract_text_from_excel f = (some t, none)) ∨
      ∃ m, extract_text_from_excel f = (none, some m)) :=
  ⟨fun f => pyCatch_cases (fetchBody f) _,
   fun f => pyCatch_cases (pdfBody f) _,
   fun f => pyCatch_cases f.decode _,
   fun f => pyCatch_cases (csvBody f) _,
   fun f => pyCatch_cases (excelBody f) _⟩

/-! ### C1: an extraction error blocks the analysis path -/

/-- C1: in every render cycle whose extraction result carries an error
message, no prompt is composed and the agent is never invoked, and the
success display is never shown alongside the error display. -/
theorem error_blocks_analysis (src : SourceInput) (q : String)
    (clicked : Bool) (m : String) (h : (runInputStage src).2 = some m) :
    (renderCycle src q clicked).agentPrompt = none ∧
    (renderCycle src q clicked).queryUnlocked = false ∧
    ¬((renderCycle src q clicked).errorShown = true ∧
      (renderCycle src q clicked).successShown = true) := by
  have hfst := runInputStage_fst_none h
  unfold renderCycle
  rw [hfst, renderMain_none]
  exact ⟨rfl, rfl, fun hc => by simp at hc⟩

/-- C1 witness: a failing webpage fetch produces an error message, and
that cycle composes no prompt, keeps the query locked, and does not show
both banners. -/
theorem error_blocks_analysis_witness :
    (runInputStage (SourceInput.website "http://x" (Except.error "boom"))).2
        = some "Error fetching content: boom" ∧
    ((renderCycle (SourceInput.website "http://x" (Except.error "boom")) "q" true).agentPrompt = none ∧
     (renderCycle (SourceInput.website "http://x" (Except.error "boom")) "q" true).queryUnlocked = false ∧
     ¬((renderCycle (SourceInput.website "http://x" (Except.error "boom")) "q" true).errorShown = true ∧
       (renderCycle (SourceInput.website "http://x" (Except.error "boom")) "q" true).successShown = true)) :=
  ⟨by decide, error_blocks_analysis _ "q" true "Error fetching content: boom" (by decide)⟩

/-! ### C5: an empty query never reaches the agent -/

/-- C5: whenever the analyze action fires with an empty query, the agent
is not invoked and no prompt is composed; and whenever the action is
available (content truthy), the empty-query click shows the warning. -/
theorem empty_query_blocks_agent :
    (∀ d e : Option String, (renderMain d e "" true).agentPrompt = none) ∧
    (∀ d e : Option String, truthy d = true →
      (renderMain d e "" true).warningShown = true ∧
      (renderMain d e "" true).agentPrompt = none) := by
  constructor
  · intro d e
    cases d with
    | none => rfl
    | some s =>
      by_cases hs : s = "" <;> simp [renderMain, hs]
  · intro d e hd
    cases d with
    | none => simp [truthy] at hd
    | some s =>
      have hs : ¬s = "" := fun he => by
        subst he
        exact absurd hd (by decide)
      simp [renderMain, hs]

/-- C5 witness: loaded content "hello", empty query, button clicked:
the warning shows and the agent prompt is empty. -/
theorem empty_query_blocks_agent_witness :
    truthy (some "hello") = true ∧
    ((renderMain (some "hello") none "" true).warningShown = true ∧
     (renderMain (some "hello") none "" true).agentPrompt = none) :=
  ⟨by decide, empty_query_blocks_agent.2 (some "hello") none (by decide)⟩

/-! ### C4: the prompt embeds exactly the first 8000 characters -/

/-- C4: for any query and any content longer than 8000 characters, the
composed prompt is the fixed template around the query and the slice
data_content[:8000]; the slice is exactly the first 8000 characters of
the content, character for character, and nothing beyond. -/
theorem prompt_truncates_at_8000 (q c : String) (h : 8000 < c.data.length) :
    analysis_prompt q c
        = promptPre ++ q ++ promptMid ++ pySlice c 8000 ++ promptPost ∧
    (pySlice c 8000).data = c.data.take 8000 ∧
    (pySlice c 8000).data.length = 8000 ∧
    (∀ i, i < 8000 → (pySlice c 8000).data[i]? = c.data[i]?) := by
  refine ⟨rfl, rfl, ?_, ?_⟩
  · show (c.data.take 8000).length = 8000
    rw [List.length_take]
    exact Nat.min_eq_left (Nat.le_of_lt h)
  · intro i hi
    show (c.data.take 8000)[i]? = c.data[i]?
    exact List.getElem?_take_of_lt hi

/-- C4 witness: a content of 8001 characters is cut to its first 8000. -/
theorem prompt_truncates_at_8000_witness :
    8000 < (String.mk (List.replicate 8001 'x')).data.length ∧
    (analysis_prompt "q" (String.mk (List.replicate 8001 'x'))
        = promptPre ++ "q" ++ promptMid ++
          pySlice (String.mk (List.replicate 8001 'x')) 8000 ++ promptPost ∧
     (pySlice (String.mk (List.replicate 8001 'x')) 8000).data
        = (String.mk (List.replicate 8001 'x')).data.take 8000 ∧
     (pySlice (String.mk (List.replicate 8001 'x')) 8000).data.length = 8000 ∧
     (∀ i, i < 8000 →
       (pySlice (String.mk (List.replicate 8001 'x')) 8000).data[i]?
          = (String.mk (List.replicate 8001 'x')).data[i]?)) :=
  ⟨by
    show 8000 < (List.replicate 8001 'x').length
    rw [List.length_replicate]
    decide,
   prompt_truncates_at_8000 "q" _ (by
    show 8000 < (List.replicate 8001 'x').length
    rw [List.length_replicate]
    decide)⟩

/-! ### C6: the PDF extractor appends a newline after every page -/

/-- The page loop over successfully extracted pages accumulates each
page text followed by a newline. -/
theorem pdfLoop_ok (ts : List String) :
    ∀ acc : String,
      pdfLoop acc (ts.map Except.ok) = .ok (acc ++ joinPages ts) := by
  induction ts with
  | nil =>
    intro acc
    simp [pdfLoop, joinPages]
  | cons t ts ih =>
    intro acc
    simp only [List.map_cons, pdfLoop, joinPages, ih]
    simp [String.append_assoc]

/-- C6 counterexample: a parsable one-page PDF whose page text is "A"
yields "A newline", not the plain newline-intercalation "A" of its page
texts: the code puts a newline after every page, including the last. -/
theorem pdf_newline_between_refuted :
    extract_text_from_pdf ⟨Except.ok [Except.ok "A"]⟩ = (some "A\n", none) ∧
    "A\n" ≠ String.intercalate "\n" ["A"] := by
  constructor
  · rfl
  · decide

/-- C6 amended: for every parsable PDF whose pages all extract, the
result is each page text followed by a newline, concatenated in page
order (so a newline separates consecutive pages and one trails the final
page), with a null error. -/
theorem pdf_concat_trailing_newline (ts : List String) :
    extract_text_from_pdf ⟨Except.ok (ts.map Except.ok)⟩
      = (some (joinPages ts), none) := by
  have h := pdfLoop_ok ts ""
  rw [String.empty_append] at h
  show pyCatch (pdfLoop "" (ts.map Except.ok)) "Error processing PDF: " = _
  rw [h]
  rfl

/-! ### C7: the collapse removes line boundaries but not all whitespace -/

/-- Every character of every piece of splitOnPred comes from the input
and fails the split predicate. -/
theorem splitOnPred_subset (p : Char → Bool) :
    ∀ (cs : List Char), ∀ l ∈ splitOnPred p cs, ∀ c ∈ l,
      c ∈ cs ∧ p c = false
  | [] => by
    intro l hl c hc
    simp only [splitOnPred, List.mem_singleton] at hl
    subst hl
    simp at hc
  | a :: cs => by
    intro l hl c hc
    simp only [splitOnPred] at hl
    by_cases hp : p a
    · rw [if_pos hp] at hl
      rcases List.mem_cons.mp hl with h0 | h1
      · subst h0
        simp at hc
      · have h := splitOnPred_subset p cs l h1 c hc
        exact ⟨List.mem_cons_of_mem _ h.1, h.2⟩
    · rw [if_neg hp] at hl
      cases hs : splitOnPred p cs with
      | nil =>
        rw [hs] at hl
        simp only [List.mem_singleton] at hl
        subst hl
        rcases List.mem_singleton.mp hc with h0
        subst h0
        exact ⟨List.mem_cons_self _ _, by simpa using hp⟩
      | cons l0 ls0 =>
        rw [hs] at hl
        rcases List.mem_cons.mp hl with h0 | h1
        · subst h0
          rcases List.mem_cons.mp hc with h2 | h2
          · subst h2
            exact ⟨List.mem_cons_self _ _, by simpa using hp⟩
          · have h := splitOnPred_subset p cs l0 (hs ▸ List.mem_cons_self l0 ls0) c h2
            exact ⟨List.mem_cons_of_mem _ h.1, h.2⟩
        · have h := splitOnPred_subset p cs l (hs ▸ List.mem_cons_of_mem l0 h1) c hc
          exact ⟨List.mem_cons_of_mem _ h.1, h.2⟩

/-- Every character of every chunk of line.split("  ") comes from the
line. -/
theorem splitTwoSpaces_subset :
    ∀ (cs : List Char), ∀ l ∈ splitTwoSpaces cs, ∀ c ∈ l, c ∈ cs
  | [] => by
    intro l hl c hc
    simp only [splitTwoSpaces, List.mem_singleton] at hl
    subst hl
    simp at hc
  | [a] => by
    intro l hl c hc
    simp only [splitTwoSpaces, List.mem_singleton] at hl
    subst hl
    simpa using hc
  | c1 :: c2 :: cs => by
    intro l hl c hc
    simp only [splitTwoSpaces] at hl
    by_cases hp : c1 = ' ' ∧ c2 = ' '
    · rw [if_pos hp] at hl
      rcases List.mem_cons.mp hl with h0 | h1
      · subst h0
        simp at hc
      · have h := splitTwoSpaces_subset cs l h1 c hc
        exact List.mem_cons_of_mem _ (List.mem_cons_of_mem _ h)
    · rw [if_neg hp] at hl
      cases hs : splitTwoSpaces (c2 :: cs) with
      | nil =>
        rw [hs] at hl
        simp only [List.mem_singleton] at hl
        subst hl
        rcases List.mem_singleton.mp hc with h0
        subst h0
        exact List.mem_cons_self _ _
      | cons l0 ls0 =>
        rw [hs] at hl
        rcases List.mem_cons.mp hl with h0 | h1
        · subst h0
          rcases List.mem_cons.mp hc with h2 | h2
          · subst h2
            exact List.mem_cons_self _ _
          · have h := splitTwoSpaces_subset (c2 :: cs) l0
              (hs ▸ List.mem_cons_self l0 ls0) c h2
            exact List.mem_cons_of_mem _ h
        · have h := splitTwoSpaces_subset (c2 :: cs) l
            (hs ▸ List.mem_cons_of_mem l0 h1) c hc
          exact List.mem_cons_of_mem _ h

/-- Every character of every chunk over all lines comes from some line. -/
theorem splitChunks_subset :
    ∀ (lines : List (List Char)), ∀ l ∈ splitChunks lines, ∀ c ∈ l,
      ∃ line ∈ lines, c ∈ line := by
  intro lines
  induction lines with
  | nil =>
    intro l hl c hc
    simp [splitChunks] at hl
  | cons line rest ih =>
    intro l hl c hc
    simp only [splitChunks, List.mem_append] at hl
    rcases hl with h0 | h1
    · exact ⟨line, List.mem_cons_self _ _,
        splitTwoSpaces_subset line l h0 c hc⟩
    · rcases ih l h1 c hc with ⟨line', hline', hc'⟩
      exact ⟨line', List.mem_cons_of_mem _ hline', hc'⟩

/-- Stripping only removes characters. -/
theorem pyStrip_subset {l : List Char} {c : Char} (h : c ∈ pyStrip l) :
    c ∈ l := by
  unfold pyStrip at h
  rw [List.mem_reverse] at h
  have h1 := List.dropWhile_subset isPySpace h
  rw [List.mem_reverse] at h1
  exact List.dropWhile_subset isPySpace h1

/-- Every character of the space-join is a space or comes from a chunk. -/
theorem joinChunks_subset :
    ∀ (ls : List (List Char)), ∀ c ∈ joinChunks ls,
      c = ' ' ∨ ∃ l ∈ ls, c ∈ l
  | [] => by
    intro c hc
    simp [joinChunks] at hc
  | [l] => by
    intro c hc
    simp only [joinChunks] at hc
    exact Or.inr ⟨l, List.mem_singleton.mpr rfl, hc⟩
  | l :: l' :: ls => by
    intro c hc
    simp only [joinChunks, List.mem_append, List.mem_cons] at hc
    rcases hc with h0 | h1 | h2
    · exact Or.inr ⟨l, List.mem_cons_self _ _, h0⟩
    · exact Or.inl h1
    · rcases joinChunks_subset (l' :: ls) c h2 with h3 | ⟨l0, hl0, hc0⟩
      · exact Or.inl h3
      · exact Or.inr ⟨l0, List.mem_cons_of_mem _ hl0, hc0⟩

/-- No line-boundary character survives the collapse of line 91. -/
theorem collapseChars_no_boundary (cs : List Char) :
    ∀ c ∈ collapseChars cs, isLineBoundary c = false := by
  intro c hc
  unfold collapseChars at hc
  rcases joinChunks_subset _ c hc with h0 | ⟨l, hl, hcl⟩
  · subst h0
    decide
  · rcases List.mem_map.mp hl with ⟨l0, hl0, hmap⟩
    have hc0 : c ∈ l0 := pyStrip_subset (hmap ▸ hcl)
    have hl1 : l0 ∈ splitChunks (splitOnPred isLineBoundary cs) :=
      (List.mem_filter.mp hl0).1
    rcases splitChunks_subset _ l0 hl1 c hc0 with ⟨line, hline, hcline⟩
    exact (splitOnPred_subset isLineBoundary _ line hline c hcline).2

/-- A successful fetch result is always the collapse of the scrubbed
DOM text of some response. -/
theorem fetchBody_ok_shape {fetch : Except PyExn HttpResponse} {t : String}
    (h : fetchBody fetch = .ok t) :
    ∃ r : HttpResponse, t = collapse_text (getTextList (scrubList r.doc)) := by
  cases fetch with
  | error e => simp [fetchBody] at h
  | ok r =>
    rw [show fetchBody (Except.ok r)
        = (match raiseForStatus r with
           | .error e => .error e
           | .ok _ => .ok (collapse_text (getTextList (scrubList r.doc))))
        from rfl] at h
    cases hr : raiseForStatus r with
    | error e =>
      rw [hr] at h
      simp at h
    | ok u =>
      rw [hr] at h
      simp only [Except.ok.injEq] at h
      exact ⟨r, h.symm⟩

/-- C7 counterexample: a 200 response whose DOM text is "a", tab, "b"
comes back unchanged: the returned text contains a tab, a whitespace
character other than a single space, so the collapse does not reduce
all whitespace to single spaces between tokens. -/
theorem webpage_collapse_incomplete_refuted :
    fetch_webpage_content
        (Except.ok ⟨200, [Node.elem "p" [Node.text "a\tb"]]⟩)
      = (some "a\tb", none) ∧
    '\t' ∈ "a\tb".data ∧ Char.isWhitespace '\t' = true ∧ '\t' ≠ ' ' := by
  have hdom : getTextList (scrubList [Node.elem "p" [Node.text "a\tb"]])
      = "a\tb" := by
    simp [scrubList, getTextList, getText, badTags]
  refine ⟨?_, by decide, by decide, by decide⟩
  show pyCatch (fetchBody _) _ = _
  rw [show fetchBody (Except.ok ⟨200, [Node.elem "p" [Node.text "a\tb"]]⟩)
      = .ok (collapse_text
          (getTextList (scrubList [Node.elem "p" [Node.text "a\tb"]])))
      from rfl, hdom]
  show (some (collapse_text "a\tb"), none) = (some "a\tb", none)
  rw [show collapse_text "a\tb" = "a\tb" from by decide]

/-- C7 amended: every text the webpage extractor returns is free of
line-boundary characters (newlines never survive the collapse), but
whitespace inside a chunk, such as a tab, may survive, so single
spacing between tokens is not guaranteed. -/
theorem webpage_text_no_line_boundary (fetch : Except PyExn HttpResponse)
    (t : String) (h : (fetch_webpage_content fetch).1 = some t) :
    t.data.all (fun c => !isLineBoundary c) = true := by
  unfold fetch_webpage_content at h
  cases hb : fetchBody fetch with
  | error e =>
    rw [hb] at h
    simp [pyCatch] at h
  | ok v =>
    rw [hb] at h
    simp only [pyCatch, Option.some.injEq] at h
    subst h
    rcases fetchBody_ok_shape hb with ⟨r, hv⟩
    subst hv
    rw [List.all_eq_true]
    intro c hc
    have hb' : isLineBoundary c = false :=
      collapseChars_no_boundary _ c hc
    simp [hb']

/-- C7 amended witness: a one-text-node page returns "x", which holds
no line-boundary character. -/
theorem webpage_text_no_line_boundary_witness :
    (fetch_webpage_content
        ((Except.ok ⟨200, [Node.text "x"]⟩ : Except PyExn HttpResponse))).1
      = some "x" ∧
    "x".data.all (fun c => !isLineBoundary c) = true := by
  have hdom : getTextList (scrubList [Node.text "x"]) = "x" := by
    simp [scrubList, getTextList, getText]
  have h1 : (fetch_webpage_content
      ((Except.ok ⟨200, [Node.text "x"]⟩ : Except PyExn HttpResponse))).1
      = some "x" := by
    show (pyCatch (fetchBody _) _).1 = _
    rw [show fetchBody
          ((Except.ok ⟨200, [Node.text "x"]⟩ : Except PyExn HttpResponse))
        = .ok (collapse_text (getTextList (scrubList [Node.text "x"])))
        from rfl, hdom]
    show some (collapse_text "x") = some "x"
    rw [show collapse_text "x" = "x" from by decide]
  exact ⟨h1, webpage_text_no_line_boundary _ "x" h1⟩

/-! ### C8: script and style contents are excluded -/

/-- After decomposing every script/style element, get_text reads exactly
the text outside script/style elements. -/
theorem scrubText_eq : ∀ (ns : List Node),
    getTextList (scrubList ns) = textOutsideList ns
  | [] => by simp [scrubList, getTextList, textOutsideList]
  | .text s :: ns => by
    simp only [scrubList, getTextList, getText, textOutsideList, textOutside]
    rw [scrubText_eq ns]
  | .elem t cs :: ns => by
    by_cases ht : t ∈ badTags
    · simp only [scrubList, if_pos ht, textOutsideList, textOutside]
      rw [scrubText_eq ns, String.empty_append]
    · simp only [scrubList, if_neg ht, getTextList, getText, textOutsideList,
        textOutside]
      rw [scrubText_eq cs, scrubText_eq ns]

/-- C8: the text assembled after the decompose loop is exactly the text
outside every script and style element, so for any 200 HTML response
the returned text excludes the contents of those elements. -/
theorem script_style_excluded :
    (∀ ns : List Node, getTextList (scrubList ns) = textOutsideList ns) ∧
    (∀ doc : List Node,
      fetch_webpage_content (Except.ok ⟨200, doc⟩)
        = (some (collapse_text (textOutsideList doc)), none)) := by
  refine ⟨scrubText_eq, ?_⟩
  intro doc
  show pyCatch (fetchBody (Except.ok ⟨200, doc⟩)) "Error fetching content: " = _
  rw [show fetchBody (Except.ok ⟨200, doc⟩)
      = .ok (collapse_text (getTextList (scrubList doc))) from rfl,
    scrubText_eq doc]
  rfl

/-! ### C9: truthiness, not success, unlocks the query path -/

/-- C9 counterexample: an empty text file decodes successfully, the
input stage stores (some "", none) — a success with empty text — yet
that render cycle neither shows the success banner nor unlocks the
query input and analyze trigger. -/
theorem empty_success_locks_refuted :
    runInputStage (SourceInput.upload (some emptyTxtUpload))
      = (some "", none) ∧
    (renderCycle (SourceInput.upload (some emptyTxtUpload)) "q" true).queryUnlocked
      = false ∧
    (renderCycle (SourceInput.upload (some emptyTxtUpload)) "q" true).successShown
      = false := by
  refine ⟨by decide, by decide, by decide⟩

/-- C9 amended: a successful extraction unlocks the query input and the
analyze trigger in that render cycle iff the extracted text is
non-empty; with non-empty text the success banner shows and the query
path opens. -/
theorem nonempty_success_unlocks (src : SourceInput) (t q : String)
    (clicked : Bool) (h1 : (runInputStage src).1 = some t) (h2 : t ≠ "") :
    (renderCycle src q clicked).successShown = true ∧
    (renderCycle src q clicked).queryUnlocked = true := by
  unfold renderCycle
  rw [h1]
  simp [renderMain, h2]

/-- C9 amended witness: a text file decoding to "hello" unlocks the
query path. -/
theorem nonempty_success_unlocks_witness :
    (runInputStage (SourceInput.upload (some helloTxtUpload))).1
      = some "hello" ∧
    ("hello" ≠ "") ∧
    ((renderCycle (SourceInput.upload (some helloTxtUpload)) "q" true).successShown
        = true ∧
     (renderCycle (SourceInput.upload (some helloTxtUpload)) "q" true).queryUnlocked
        = true) :=
  ⟨by decide, by decide,
   nonempty_success_unlocks _ "hello" "q" true (by decide) (by decide)⟩

/-! ### C10: an unhandled media type leaves the cycle inert -/

/-- C10: a file whose declared media type matches none of the dispatch
arms leaves data_content and error_message both None: no extractor runs,
neither banner is shown, the query path stays locked and no prompt or
agent call is made. -/
theorem unhandled_type_inert (f : UploadedFile) (q : String) (clicked : Bool)
    (h : f.type ∉ handledTypes) :
    runInputStage (SourceInput.upload (some f)) = (none, none) ∧
    (renderCycle (SourceInput.upload (some f)) q clicked).errorShown = false ∧
    (renderCycle (SourceInput.upload (some f)) q clicked).successShown = false ∧
    (renderCycle (SourceInput.upload (some f)) q clicked).queryUnlocked = false ∧
    (renderCycle (SourceInput.upload (some f)) q clicked).agentPrompt = none := by
  have h1 : ¬f.type = "application/pdf" := fun he => h (by rw [he]; simp [handledTypes])
  have h2 : ¬f.type = "text/plain" := fun he => h (by rw [he]; simp [handledTypes])
  have h3 : ¬f.type = "text/csv" := fun he => h (by rw [he]; simp [handledTypes])
  have h4 : ¬(f.type = "application/vnd.ms-excel" ∨
      f.type = "application/vnd.openxmlformats-officedocument.spreadsheetml.sheet") := by
    rintro (he | he) <;> exact h (by rw [he]; simp [handledTypes])
  have hrun : runInputStage (SourceInput.upload (some f)) = (none, none) := by
    simp only [runInputStage, if_neg h1, if_neg h2, if_neg h3, if_neg h4]
  refine ⟨hrun, ?_, ?_, ?_, ?_⟩ <;>
    · unfold renderCycle
      rw [hrun]
      rfl

/-- C10 witness: an image/png upload leaves the whole cycle inert. -/
theorem unhandled_type_inert_witness :
    pngUpload.type ∉ handledTypes ∧
    (runInputStage (SourceInput.upload (some pngUpload)) = (none, none) ∧
     (renderCycle (SourceInput.upload (some pngUpload)) "q" true).errorShown = false ∧
     (renderCycle (SourceInput.upload (some pngUpload)) "q" true).successShown = false ∧
     (renderCycle (SourceInput.upload (some pngUpload)) "q" true).queryUnlocked = false ∧
     (renderCycle (SourceInput.upload (some pngUpload)) "q" true).agentPrompt = none) :=
  ⟨by decide, unhandled_type_inert pngUpload "q" true (by decide)⟩

end Agentic
